import Mathlib

/-!
Verification of the llama-bench sweep runner (`llama-bench-runner.py`).

The development shallowly embeds the script's data model and operations:

* JSON values decoded from the subprocess's line-delimited output are an
  inductive `Json`, with numbers carried exactly as rationals;
* `LlamaBenchRunner._parse_line` becomes `parse_line`, with the JSON decoder
  (`json.loads`, returning `none` where Python raises `json.JSONDecodeError`)
  passed in as a function parameter;
* `BenchmarkVisualizer._calculate_speeds` / `update_result` become
  `calculate_speeds` / `update_result`, returning `Except` where the Python
  code can raise;
* `BenchConfig.count_combinations` is embedded over a character-level model
  of Python's `str.split`;
* the sweep executor (`_run_single_config`, `run_all`, `_save_results`,
  `_check_process_result`) is embedded as a state transformer over an
  explicit file-system map, with the child process's observable behaviour
  (output lines, exit code, exception) supplied as data;
* `main` and `_handle_interrupt` become a decision model from the CLI
  events (arguments, path existence, confirmation input, interrupts) to the
  observable outcome (exit status, prints, child termination).
-/

namespace LlamaBench

/-- JSON values as produced by Python's `json.loads` on one output line of the
benchmark subprocess. Numbers (`int` and `float` alike) are carried exactly as
rationals; objects keep their entry order. -/
inductive Json where
  | null
  | bool (b : Bool)
  | num (q : ℚ)
  | str (s : String)
  | arr (elems : List Json)
  | obj (entries : List (String × Json))

/-- Python `isinstance(data, dict)` on a decoded JSON value. -/
def Json.isDict : Json → Bool
  | .obj _ => true
  | _ => false

/-- Python `key in data` for a decoded dict (`false` on any non-dict value,
matching how the script only uses it after the `isinstance` check). -/
def Json.hasKey : Json → String → Bool
  | .obj entries, key => entries.any (fun e => e.1 == key)
  | _, _ => false

/-- Python `data.get(key, default)` for a decoded dict. `json.loads` keeps the
last binding of a duplicated key, so lookup scans the entries from the right.
On a non-dict value the script never calls `.get`, so the default is returned. -/
def Json.dictGet (j : Json) (key : String) (dflt : Json) : Json :=
  match j with
  | .obj entries =>
    match entries.reverse.find? (fun e => e.1 == key) with
    | some e => e.2
    | none => dflt
  | _ => dflt

/-- The characters Python's `str.strip()` removes: ASCII whitespace. -/
def pyWhitespace (c : Char) : Bool :=
  c == ' ' || c == '\t' || c == '\n' || c == '\r' || c == '\x0b' || c == '\x0c'

/-- Python `line.strip()`: drop leading and trailing whitespace. -/
def pyStrip (s : String) : String :=
  String.mk (((s.data.dropWhile pyWhitespace).reverse.dropWhile pyWhitespace).reverse)

/-- Embedding of `LlamaBenchRunner._parse_line`: strip the line; an empty line yields
`none`; then decode (`loads` models `json.loads`, `none` standing for a raised
and caught `json.JSONDecodeError`); a decoded value is returned unchanged
exactly when it is a dict containing the key `"n_prompt"`, else `none`. -/
def parse_line (loads : String → Option Json) (line : String) : Option Json :=
  let stripped := pyStrip line
  if stripped = "" then none
  else
    match loads stripped with
    | none => none
    | some data => if data.isDict && data.hasKey "n_prompt" then some data else none

/-- Python `float(x)` on a decoded JSON value: exact on numbers, `True`/`False`
convert to 1/0, and `float(None)`, `float([...])`, `float({...})` raise
`TypeError`. Conversion of strings (which Python accepts for numeric text) lies
outside the numeric fragment this model covers and is mapped to an error; no
theorem below depends on that branch. -/
def pyFloat : Json → Except String ℚ
  | .num q => .ok q
  | .bool b => .ok (if b then 1 else 0)
  | .str _ => .error "float() on a string: outside the modelled numeric fragment"
  | .null => .error "TypeError: float() argument must be a number"
  | .arr _ => .error "TypeError: float() argument must be a number"
  | .obj _ => .error "TypeError: float() argument must be a number"

/-- Python `x == 0` on a decoded JSON value: never raises; numbers compare by
value, `False == 0` is true, and values of any other type are simply unequal. -/
def pyEqZero : Json → Bool
  | .num q => decide (q = 0)
  | .bool b => !b
  | _ => false

/-- Python `x > 0` on a decoded JSON value: numbers compare by value, booleans
coerce (`True > 0`), and any other type raises `TypeError`. -/
def pyGtZero : Json → Except String Bool
  | .num q => .ok (decide (0 < q))
  | .bool b => .ok b
  | _ => .error "TypeError: not supported between instances"

/-- A numeric operand of Python's `/` on decoded JSON values: numbers are
exact, booleans coerce to 1/0, any other operand type raises `TypeError`. -/
def pyToNum : Json → Except String ℚ
  | .num q => .ok q
  | .bool b => .ok (if b then 1 else 0)
  | _ => .error "TypeError: unsupported operand type for division"

/-- Python `a / b` (true division) on decoded JSON values: `TypeError` on
non-numeric operands, `ZeroDivisionError` on a zero divisor. -/
def pyDiv (a b : Json) : Except String ℚ := do
  let x ← pyToNum a
  let y ← pyToNum b
  if y = 0 then Except.error "ZeroDivisionError: float division by zero"
  else pure (x / y)

/-- Embedding of `BenchmarkVisualizer._calculate_speeds(result_json, n_prompt, n_gen)`:
if `n_gen == 0` return `(float(avg_ts), 0.0)` with `avg_ts` read from the
record with default 0; else if `avg_ts > 0` return `(0.0, float(avg_ts))`;
else fall back to the raw timings `t_pp_ms` / `t_tg_ms` (default 0), with each
speed `tokens / (millis/1000)` when its timing is positive and `0.0` otherwise. -/
def calculate_speeds (result_json n_prompt n_gen : Json) : Except String (ℚ × ℚ) := do
  let avg_ts := result_json.dictGet "avg_ts" (Json.num 0)
  if pyEqZero n_gen then do
    let a ← pyFloat avg_ts
    pure (a, 0)
  else do
    let avgPos ← pyGtZero avg_ts
    if avgPos then do
      let a ← pyFloat avg_ts
      pure (0, a)
    else do
      let t_enc := result_json.dictGet "t_pp_ms" (Json.num 0)
      let t_gen := result_json.dictGet "t_tg_ms" (Json.num 0)
      let encPos ← pyGtZero t_enc
      let enc_s ← if encPos then do
          let d ← pyDiv t_enc (Json.num 1000)
          pyDiv n_prompt (Json.num d)
        else pure 0
      let genPos ← pyGtZero t_gen
      let gen_s ← if genPos then do
          let d ← pyDiv t_gen (Json.num 1000)
          pyDiv n_gen (Json.num d)
        else pure 0
      pure (enc_s, gen_s)

/-- Speed derivation for one parsed record, with the token counts read with
default 0 exactly as `update_result` does before calling `_calculate_speeds`. -/
def derive_speeds (result_json : Json) : Except String (ℚ × ℚ) :=
  calculate_speeds result_json (result_json.dictGet "n_prompt" (Json.num 0))
    (result_json.dictGet "n_gen" (Json.num 0))

/-- The speed-derivation rule as the specification states it, over the numeric
field values (absent fields already defaulted to 0): a zero generation count
returns `(avg_ts, 0)`; else a positive `avg_ts` returns `(0, avg_ts)`; else
each speed falls back to `tokens / (millis/1000)` guarded by a positive timing. -/
def spec_derive (n_prompt n_gen avg_ts t_pp_ms t_tg_ms : ℚ) : ℚ × ℚ :=
  if n_gen = 0 then (avg_ts, 0)
  else if 0 < avg_ts then (0, avg_ts)
  else ((if 0 < t_pp_ms then n_prompt / (t_pp_ms / 1000) else 0),
        (if 0 < t_tg_ms then n_gen / (t_tg_ms / 1000) else 0))

/-- One row of the live display, as built by `update_result`: the raw fields it
copies out of the record plus the derived speed pair. -/
structure DisplayEntry where
  kv : String
  batch : Json
  n_prompt : Json
  n_gen : Json
  n_depth : Json
  enc_speed : ℚ
  gen_speed : ℚ

/-- The mutable state of `BenchmarkVisualizer`: the full `results_history`
list and the progress counter advanced once per recorded result. -/
structure VizState where
  results_history : List DisplayEntry
  completed : Nat

/-- The visualizer's state right after construction. -/
def viz_init : VizState where
  results_history := []
  completed := 0

/-- Embedding of `BenchmarkVisualizer.update_result(result_json, kv_str)`: read `n_prompt`,
`n_gen`, `n_depth` (default 0) and `n_batch` (default `"?"`), derive the
speeds, append the new entry to `results_history`, and advance the progress
task by one. -/
def update_result (st : VizState) (result_json : Json) (kv_str : String) :
    Except String VizState := do
  let n_prompt := result_json.dictGet "n_prompt" (Json.num 0)
  let n_gen := result_json.dictGet "n_gen" (Json.num 0)
  let n_depth := result_json.dictGet "n_depth" (Json.num 0)
  let s ← calculate_speeds result_json n_prompt n_gen
  let entry : DisplayEntry :=
    { kv := kv_str
      batch := result_json.dictGet "n_batch" (Json.str "?")
      n_prompt := n_prompt
      n_gen := n_gen
      n_depth := n_depth
      enc_speed := s.1
      gen_speed := s.2 }
  pure { results_history := st.results_history ++ [entry], completed := st.completed + 1 }

/-- The rows `BenchmarkVisualizer.generate_display` renders: the slice
`results_history[-10:]`, i.e. everything past all but the last 10 entries. -/
def display_rows (st : VizState) : List DisplayEntry :=
  st.results_history.drop (st.results_history.length - 10)

/-- Record a sequence of parsed results, in order, as the executor's read loop
does: each one is appended to the history and counted. -/
def record_many (st : VizState) : List (Json × String) → Except String VizState
  | [] => .ok st
  | (r, kv) :: rest => do
    let st' ← update_result st r kv
    record_many st' rest

/-- Embedding of `BenchConfig`: the sweep's parameter-space descriptors. The five sweep
fields are comma-joined text handed verbatim to the subprocess. -/
structure BenchConfig where
  kv_cache_types : List (String × String)
  batch_sizes : String
  ubatch_sizes : String
  depths : String
  prompt_lengths : String
  gen_lengths : String
  output_dir : String

/-- The defaults `BenchConfig` is constructed with (after `__post_init__`
fills in the cache-type pairs). -/
def default_config : BenchConfig where
  kv_cache_types := [("q8_0", "q8_0")]
  batch_sizes := "8192"
  ubatch_sizes := "2048"
  depths := "0,512,1024,2048,4096,8192"
  prompt_lengths := "128,256,512,1024,2048,4096,8192"
  gen_lengths := "128,256,512,1024,2048,4096,8192"
  output_dir := "test-results"

/-- Python `s.split(sep)` for a one-character separator, at the character
level: splits at every occurrence of the separator, keeping empty pieces, and
yields one piece even for empty input. -/
def pySplit (sep : Char) : List Char → List (List Char)
  | [] => [[]]
  | c :: rest =>
    match pySplit sep rest with
    | [] => [[]]
    | piece :: pieces =>
      if c == sep then [] :: piece :: pieces else (c :: piece) :: pieces

/-- Embedding of `BenchConfig._count_opts`: `len(s.split(',')) if s else 0`. -/
def count_opts (s : String) : Nat :=
  if s = "" then 0 else (pySplit ',' s.data).length

/-- Embedding of `BenchConfig.count_combinations`: the product of the five per-field option
counts, floored to 1 when the product is 0. -/
def BenchConfig.count_combinations (cfg : BenchConfig) : Nat :=
  let total := count_opts cfg.batch_sizes * count_opts cfg.ubatch_sizes *
    count_opts cfg.depths * count_opts cfg.prompt_lengths * count_opts cfg.gen_lengths
  if total > 0 then total else 1

/-- The specification's cardinality of a comma-separated field: the number of
comma-separated tokens, an empty string counting as 0. A nonempty string has
one more token than it has commas. -/
def spec_cardinality (s : String) : Nat :=
  if s = "" then 0 else s.data.count ',' + 1

/-- Embedding of `LlamaBenchRunner.get_output_filename`: the deterministic per-pair output
path `<output_dir>/raw-data-<k>-<v>-<date>.json`, with the current date
(already formatted `YYYYMMDD`) passed in as data. -/
def output_filename (output_dir k v date_str : String) : String :=
  output_dir ++ "/raw-data-" ++ k ++ "-" ++ v ++ "-" ++ date_str ++ ".json"

/-- The output directory, as a map from file path to stored contents; a file's
contents are modelled as the record list its JSON array serializes. -/
def FileSystem : Type := String → Option (List Json)

/-- Embedding of `LlamaBenchRunner._save_results`: return early (write nothing) when the
collected list is empty, otherwise open the file for writing and replace its
whole contents with the collected array. -/
def save_results (results : List Json) (output_file : String) (fs : FileSystem) :
    FileSystem :=
  if results.isEmpty then fs
  else fun f => if f = output_file then some results else fs f

/-- The run-level error message `_check_process_result` builds for a non-zero
exit code: the code, then the accumulated standard-error text when any was
captured. -/
def process_fail_msg (rc : Int) (stderr_text : String) : String :=
  "Process failed (rc=" ++ toString rc ++ ")" ++
    (if stderr_text = "" then "" else "\nStderr: " ++ stderr_text)

/-- Embedding of `LlamaBenchRunner._check_process_result`: the errors logged after the
process is reaped — a failure message on a non-zero exit code, a `"No results"`
message on a zero exit code with an empty collected list, nothing otherwise. -/
def check_process_result (rc : Int) (results : List Json) (kv_str stderr_text : String) :
    List String :=
  if rc ≠ 0 then [process_fail_msg rc stderr_text]
  else if results.isEmpty then ["No results for " ++ kv_str]
  else []

/-- What one child-process run observably did: either it was launched, its
standard output was read to end-of-stream and its exit code obtained, or an
exception cut the run short after some prefix of the lines had been fully
processed (appended and displayed). In both cases `lines` are the lines whose
processing completed. -/
inductive ProcOutcome where
  | completed (lines : List String) (rc : Int) (stderr_text : String)
  | raised (msg : String) (lines : List String)

/-- The stdout lines whose read-loop iteration ran to completion. -/
def ProcOutcome.linesRead : ProcOutcome → List String
  | .completed lines _ _ => lines
  | .raised _ lines => lines

/-- The read loop's accumulation into `collected_results`: every line that
parses to a record is kept, in order; the rest are dropped. -/
def collect (loads : String → Option Json) (lines : List String) : List Json :=
  lines.filterMap (parse_line loads)

/-- Embedding of `LlamaBenchRunner._run_single_config` for the cache-type pair `(k, v)`:
collect the parsed records from the lines read; on normal completion log what
`_check_process_result` reports, on an exception log its message; and in the
`finally` block — on every path — hand the collected list to `_save_results`
for this pair's output file. Returns the resulting file system and the logged
errors. -/
def run_single_config (loads : String → Option Json) (k v date_str output_dir : String)
    (outcome : ProcOutcome) (fs : FileSystem) : FileSystem × List String :=
  let kv_str := k ++ "/" ++ v
  let output_file := output_filename output_dir k v date_str
  let collected := collect loads outcome.linesRead
  let errs :=
    match outcome with
    | .completed _ rc stderr_text => check_process_result rc collected kv_str stderr_text
    | .raised msg _ => ["Error: " ++ msg]
  (save_results collected output_file fs, errs)

/-- Embedding of `LlamaBenchRunner.run_all`'s sweep loop: the configured cache-type pairs
are run strictly one after another, each exactly once, whatever each run's
outcome; the returned triple is the final file system, all errors logged in
order, and the pairs for which a subprocess was launched. -/
def run_all_pairs (loads : String → Option Json) (date_str output_dir : String)
    (outcome_of : String → String → ProcOutcome) :
    List (String × String) → FileSystem → FileSystem × List String × List (String × String)
  | [], fs => (fs, [], [])
  | (k, v) :: rest, fs =>
    let step := run_single_config loads k v date_str output_dir (outcome_of k v) fs
    let next := run_all_pairs loads date_str output_dir outcome_of rest step.1
    (next.1, step.2 ++ next.2.1, (k, v) :: next.2.2)

/-- What the user did at the pre-run confirmation prompt: entered a line, or
interrupted (Ctrl-C) while `input()` was blocking. -/
inductive ConfirmEvent where
  | entered
  | interrupted

/-- How the sweep execution itself ended: ran to completion, or a keyboard
interrupt arrived (with or without a child process in flight at that moment). -/
inductive ExecEvent where
  | completes
  | interrupted (process_running : Bool)

/-- The observable outcome of one CLI invocation: the process exit status,
whether the usage line was printed, the estimated total run count printed
before the confirmation prompt (if reached), and whether an in-flight child
process was sent a termination request. -/
structure CliResult where
  exit_code : Int
  printed_usage : Bool
  printed_plan : Option Nat
  terminated_child : Bool

/-- Embedding of `main` together with the path check in the runner's
constructor and
`_handle_interrupt`, as a decision model over the external events: fewer than
two CLI words print usage and exit 1; a missing model path exits 1; otherwise
the estimated total (pairs × combinations) is printed and `input()` blocks —
an interrupt there exits 0, an interrupt during execution terminates any
in-flight child and exits 130, and normal completion exits 0. -/
def main_model (argv : List String) (path_exists : String → Bool) (cfg : BenchConfig)
    (confirm : ConfirmEvent) (exec_event : ExecEvent) : CliResult :=
  if argv.length < 2 then
    { exit_code := 1, printed_usage := true, printed_plan := none, terminated_child := false }
  else if ¬ path_exists (argv.getD 1 "") then
    { exit_code := 1, printed_usage := false, printed_plan := none, terminated_child := false }
  else
    let total := cfg.kv_cache_types.length * cfg.count_combinations
    match confirm with
    | .interrupted =>
      { exit_code := 0, printed_usage := false, printed_plan := some total,
        terminated_child := false }
    | .entered =>
      match exec_event with
      | .interrupted running =>
        { exit_code := 130, printed_usage := false, printed_plan := some total,
          terminated_child := running }
      | .completes =>
        { exit_code := 0, printed_usage := false, printed_plan := some total,
          terminated_child := false }

/-! ## Helper lemmas -/

lemma pySplit_ne_nil (sep : Char) (l : List Char) : pySplit sep l ≠ [] := by
  cases l with
  | nil => simp [pySplit]
  | cons c rest =>
    rw [pySplit]
    cases h : pySplit sep rest with
    | nil => simp
    | cons piece pieces => by_cases hc : c == sep <;> simp [hc]

lemma pySplit_length (sep : Char) (l : List Char) :
    (pySplit sep l).length = l.count sep + 1 := by
  induction l with
  | nil => simp [pySplit]
  | cons c rest ih =>
    rw [pySplit]
    cases h : pySplit sep rest with
    | nil => exact absurd h (pySplit_ne_nil sep rest)
    | cons piece pieces =>
      have ih' : pieces.length + 1 = rest.count sep + 1 := by
        rw [h] at ih
        simpa using ih
      by_cases hc : c = sep
      · have hc1 : (c == sep) = true := by simp [hc]
        have hc2 : (sep == c) = true := by simp [hc]
        simp [hc1, List.count_cons, hc2] <;> omega
      · have hc1 : (c == sep) = false := by simp [hc]
        have hc2 : (sep == c) = false := by
          simp only [beq_eq_false_iff_ne, ne_eq]
          exact fun hh => hc hh.symm
        simp [hc1, List.count_cons, hc2] <;> omega

lemma count_opts_eq_spec (s : String) : count_opts s = spec_cardinality s := by
  unfold count_opts spec_cardinality
  by_cases h : s = ""
  · simp [h]
  · simp [h, pySplit_length]

/-! ## C3: combination counting -/

/-- The specification's example sweep configuration: batch `"8192"`, ubatch
`"2048"`, depths `"0,512"`, prompts `"128,256,512"`, gens `"128,256"`. -/
def example_config : BenchConfig where
  kv_cache_types := [("q8_0", "q8_0")]
  batch_sizes := "8192"
  ubatch_sizes := "2048"
  depths := "0,512"
  prompt_lengths := "128,256,512"
  gen_lengths := "128,256"
  output_dir := "test-results"

/-- C3: for every configuration of the five comma-separated fields,
`count_combinations` returns the product of the fields' cardinalities
(cardinality = number of comma-separated tokens, an empty string counting
as 0), and returns 1 whenever that product is 0; the example configuration
batch="8192", ubatch="2048", depths="0,512", prompts="128,256,512",
gens="128,256" gives 12. -/
theorem count_combinations_spec :
    (∀ cfg : BenchConfig,
      cfg.count_combinations =
        (if spec_cardinality cfg.batch_sizes * spec_cardinality cfg.ubatch_sizes *
            spec_cardinality cfg.depths * spec_cardinality cfg.prompt_lengths *
            spec_cardinality cfg.gen_lengths = 0 then 1
         else spec_cardinality cfg.batch_sizes * spec_cardinality cfg.ubatch_sizes *
            spec_cardinality cfg.depths * spec_cardinality cfg.prompt_lengths *
            spec_cardinality cfg.gen_lengths)) ∧
    example_config.count_combinations = 12 := by
  constructor
  · intro cfg
    unfold BenchConfig.count_combinations
    rw [count_opts_eq_spec, count_opts_eq_spec, count_opts_eq_spec, count_opts_eq_spec,
      count_opts_eq_spec]
    by_cases h : spec_cardinality cfg.batch_sizes * spec_cardinality cfg.ubatch_sizes *
        spec_cardinality cfg.depths * spec_cardinality cfg.prompt_lengths *
        spec_cardinality cfg.gen_lengths = 0
    · simp [h]
    · simp [h, Nat.pos_of_ne_zero h]
  · rfl

/-! ## C2 and C10: line parsing -/

/-- C2: `parse_line` yields `none` for a line that strips to empty, fails to
decode, decodes to a non-dict value, or decodes to a dict without the
`"n_prompt"` key — and yields the decoded dict exactly when it carries that
key. The decoder (`json.loads`, `none` standing for a raised-and-caught
decode error) is universally quantified. -/
theorem parse_line_cases : ∀ (loads : String → Option Json) (line : String),
    (pyStrip line = "" → parse_line loads line = none) ∧
    (pyStrip line ≠ "" → loads (pyStrip line) = none → parse_line loads line = none) ∧
    (∀ j : Json, pyStrip line ≠ "" → loads (pyStrip line) = some j → j.isDict = false →
      parse_line loads line = none) ∧
    (∀ j : Json, pyStrip line ≠ "" → loads (pyStrip line) = some j →
      j.hasKey "n_prompt" = false → parse_line loads line = none) ∧
    (∀ j : Json, pyStrip line ≠ "" → loads (pyStrip line) = some j → j.isDict = true →
      j.hasKey "n_prompt" = true → parse_line loads line = some j) := by
  intro loads line
  refine ⟨?_, ?_, ?_, ?_, ?_⟩
  · intro h1
    simp [parse_line, h1]
  · intro h1 h2
    simp [parse_line, h1, h2]
  · intro j h1 h2 h3
    simp [parse_line, h1, h2, h3]
  · intro j h1 h2 h3
    simp [parse_line, h1, h2, h3]
  · intro j h1 h2 h3 h4
    simp [parse_line, h1, h2, h3, h4]

/-- A decoder that accepts nothing: every line is a decode failure. -/
def loads_none : String → Option Json := fun _ => none

/-- The specification's example result line. -/
def sample_line : String := "\x7b\"n_prompt\": 128, \"n_gen\": 0, \"avg_ts\": 55.2\x7d"

/-- The record the example result line decodes to. -/
def sample_record : Json :=
  Json.obj [("n_prompt", Json.num 128), ("n_gen", Json.num 0), ("avg_ts", Json.num 55.2)]

/-- A decoder knowing exactly the example result line. -/
def loads_sample : String → Option Json :=
  fun s => if s = sample_line then some sample_record else none

/-- A decoder mapping `"[1, 2]"` to a JSON array (a non-dict value). -/
def loads_arr : String → Option Json :=
  fun s => if s = "[1, 2]" then some (Json.arr [Json.num 1, Json.num 2]) else none

/-- A line decoding to a dict that lacks the `"n_prompt"` key. -/
def nokey_line : String := "\x7b\"n_gen\": 0\x7d"

/-- A decoder mapping `nokey_line` to a dict without `"n_prompt"`. -/
def loads_nokey : String → Option Json :=
  fun s => if s = nokey_line then some (Json.obj [("n_gen", Json.num 0)]) else none

/-- Witness for C2: the empty string, a whitespace-only string, an undecodable
string, a JSON array, and a dict missing `"n_prompt"` all yield `none`, and the
example result line yields its record. -/
theorem parse_line_cases_witness :
    parse_line loads_none "" = none ∧
    parse_line loads_none "   " = none ∧
    parse_line loads_none "not json" = none ∧
    parse_line loads_arr "[1, 2]" = none ∧
    parse_line loads_nokey nokey_line = none ∧
    parse_line loads_sample sample_line = some sample_record :=
  ⟨(parse_line_cases loads_none "").1 rfl,
   (parse_line_cases loads_none "   ").1 rfl,
   (parse_line_cases loads_none "not json").2.1 (by decide) rfl,
   (parse_line_cases loads_arr "[1, 2]").2.2.1 (Json.arr [Json.num 1, Json.num 2])
     (by decide) rfl rfl,
   (parse_line_cases loads_nokey nokey_line).2.2.2.1 (Json.obj [("n_gen", Json.num 0)])
     (by decide) rfl rfl,
   (parse_line_cases loads_sample sample_line).2.2.2.2 sample_record
     (by decide) rfl rfl rfl⟩

/-- C10: an accepted line is returned as the decoded mapping itself,
unchanged — any decoded dict containing the key `"n_prompt"` is accepted, with
no validation, coercion or defaulting of any field value. -/
theorem parse_line_identity : ∀ (loads : String → Option Json) (line : String) (j : Json),
    pyStrip line ≠ "" → loads (pyStrip line) = some j → j.isDict = true →
    j.hasKey "n_prompt" = true → parse_line loads line = some j := by
  intro loads line j h1 h2 h3 h4
  simp [parse_line, h1, h2, h3, h4]

/-- A dict whose `"n_prompt"` value is not a number and that has no other
fields at all. -/
def odd_record : Json := Json.obj [("n_prompt", Json.str "not a number")]

/-- A line decoding to `odd_record`. -/
def odd_line : String := "\x7b\"n_prompt\": \"not a number\"\x7d"

/-- A decoder knowing exactly `odd_line`. -/
def loads_odd : String → Option Json :=
  fun s => if s = odd_line then some odd_record else none

/-- Witness for C10: a mapping whose `"n_prompt"` value is a string and that
has no other fields is accepted and returned unchanged. -/
theorem parse_line_identity_witness :
    parse_line loads_odd odd_line = some odd_record :=
  parse_line_identity loads_odd odd_line odd_record (by decide) rfl rfl rfl

/-! ## C1 and C8: speed derivation -/

lemma calculate_speeds_eq_spec (r : Json) (np ng avg tpp ttg : ℚ)
    (hnp : r.dictGet "n_prompt" (Json.num 0) = Json.num np)
    (hng : r.dictGet "n_gen" (Json.num 0) = Json.num ng)
    (havg : r.dictGet "avg_ts" (Json.num 0) = Json.num avg)
    (htpp : r.dictGet "t_pp_ms" (Json.num 0) = Json.num tpp)
    (httg : r.dictGet "t_tg_ms" (Json.num 0) = Json.num ttg) :
    derive_speeds r = Except.ok (spec_derive np ng avg tpp ttg) := by
  have h1000 : (1000 : ℚ) ≠ 0 := by norm_num
  unfold derive_speeds calculate_speeds spec_derive
  rw [hnp, hng, havg, htpp, httg]
  by_cases h1 : ng = 0
  · simp [pyEqZero, h1, pyFloat, Bind.bind, Except.bind, Pure.pure, Except.pure]
  · by_cases h2 : 0 < avg
    · simp [pyEqZero, h1, pyGtZero, h2, pyFloat, Bind.bind, Except.bind, Pure.pure,
        Except.pure]
    · by_cases h3 : 0 < tpp
      · have e3 : tpp / 1000 ≠ 0 := div_ne_zero (ne_of_gt h3) h1000
        by_cases h4 : 0 < ttg
        · have e4 : ttg / 1000 ≠ 0 := div_ne_zero (ne_of_gt h4) h1000
          simp [pyEqZero, h1, pyGtZero, h2, h3, h4, pyFloat, pyDiv, pyToNum, h1000, e3, e4,
            Bind.bind, Except.bind, Pure.pure, Except.pure]
        · simp [pyEqZero, h1, pyGtZero, h2, h3, h4, pyFloat, pyDiv, pyToNum, h1000, e3,
            Bind.bind, Except.bind, Pure.pure, Except.pure]
      · by_cases h4 : 0 < ttg
        · have e4 : ttg / 1000 ≠ 0 := div_ne_zero (ne_of_gt h4) h1000
          simp [pyEqZero, h1, pyGtZero, h2, h3, h4, pyFloat, pyDiv, pyToNum, h1000, e4,
            Bind.bind, Except.bind, Pure.pure, Except.pure]
        · simp [pyEqZero, h1, pyGtZero, h2, h3, h4, pyFloat, pyDiv, pyToNum, h1000,
            Bind.bind, Except.bind, Pure.pure, Except.pure]

lemma spec_derive_nonneg (np ng avg tpp ttg : ℚ) (p1 : 0 ≤ np) (p2 : 0 ≤ ng)
    (p3 : 0 ≤ avg) (p4 : 0 ≤ tpp) (p5 : 0 ≤ ttg) :
    0 ≤ (spec_derive np ng avg tpp ttg).1 ∧ 0 ≤ (spec_derive np ng avg tpp ttg).2 := by
  unfold spec_derive
  split_ifs with g1 g2 g3 g4 g5
  · exact ⟨p3, le_refl 0⟩
  · exact ⟨le_refl 0, le_of_lt g2⟩
  · exact ⟨div_nonneg p1 (div_nonneg (le_of_lt g3) (by norm_num)),
      div_nonneg p2 (div_nonneg (le_of_lt g4) (by norm_num))⟩
  · exact ⟨div_nonneg p1 (div_nonneg (le_of_lt g3) (by norm_num)), le_refl 0⟩
  · exact ⟨le_refl 0, div_nonneg p2 (div_nonneg (le_of_lt g5) (by norm_num))⟩
  · exact ⟨le_refl 0, le_refl 0⟩

/-- The spec's first example record for speed derivation. -/
def speeds_ex1 : Json :=
  Json.obj [("n_prompt", Json.num 128), ("n_gen", Json.num 0), ("avg_ts", Json.num 55.2)]

/-- The spec's second example record for speed derivation. -/
def speeds_ex2 : Json :=
  Json.obj [("n_prompt", Json.num 128), ("n_gen", Json.num 64), ("avg_ts", Json.num 30)]

/-- The spec's third example record for speed derivation. -/
def speeds_ex3 : Json :=
  Json.obj [("n_prompt", Json.num 128), ("n_gen", Json.num 64), ("avg_ts", Json.num 0),
    ("t_pp_ms", Json.num 1000), ("t_tg_ms", Json.num 2000)]

/-- The spec's fourth example record: all timing fields zero. -/
def speeds_ex4 : Json :=
  Json.obj [("n_prompt", Json.num 0), ("n_gen", Json.num 0), ("avg_ts", Json.num 0),
    ("t_pp_ms", Json.num 0), ("t_tg_ms", Json.num 0)]

/-- C1: on every record whose relevant fields are numbers (absent fields
defaulting to 0), `derive_speeds` follows the ordered precedence of the
specification (`spec_derive`): generation count zero returns `(avg_ts, 0)`;
else a positive `avg_ts` returns `(0, avg_ts)`; else the raw-timing fallback.
The four example records evaluate to `(55.2, 0)`, `(0, 30)`, `(128, 32)` and
`(0, 0)`. -/
theorem derive_speeds_precedence :
    (∀ (r : Json) (np ng avg tpp ttg : ℚ),
      r.dictGet "n_prompt" (Json.num 0) = Json.num np →
      r.dictGet "n_gen" (Json.num 0) = Json.num ng →
      r.dictGet "avg_ts" (Json.num 0) = Json.num avg →
      r.dictGet "t_pp_ms" (Json.num 0) = Json.num tpp →
      r.dictGet "t_tg_ms" (Json.num 0) = Json.num ttg →
      derive_speeds r = Except.ok (spec_derive np ng avg tpp ttg)) ∧
    derive_speeds speeds_ex1 = Except.ok (55.2, 0) ∧
    derive_speeds speeds_ex2 = Except.ok (0, 30) ∧
    derive_speeds speeds_ex3 = Except.ok (128, 32) ∧
    derive_speeds speeds_ex4 = Except.ok (0, 0) := by
  refine ⟨fun r np ng avg tpp ttg h1 h2 h3 h4 h5 =>
    calculate_speeds_eq_spec r np ng avg tpp ttg h1 h2 h3 h4 h5, ?_, ?_, ?_, ?_⟩
  · rw [calculate_speeds_eq_spec speeds_ex1 128 0 55.2 0 0 rfl rfl rfl rfl rfl]
    norm_num [spec_derive]
  · rw [calculate_speeds_eq_spec speeds_ex2 128 64 30 0 0 rfl rfl rfl rfl rfl]
    norm_num [spec_derive]
  · rw [calculate_speeds_eq_spec speeds_ex3 128 64 0 1000 2000 rfl rfl rfl rfl rfl]
    norm_num [spec_derive]
  · rw [calculate_speeds_eq_spec speeds_ex4 0 0 0 0 0 rfl rfl rfl rfl rfl]
    norm_num [spec_derive]

/-- Witness for C1: the precedence theorem applied to the first example
record, whose every relevant lookup is a number. -/
theorem derive_speeds_precedence_witness :
    derive_speeds speeds_ex1 = Except.ok (spec_derive 128 0 55.2 0 0) :=
  derive_speeds_precedence.1 speeds_ex1 128 0 55.2 0 0 rfl rfl rfl rfl rfl

/-- Counterexample for C8: the parser accepts any mapping with an `"n_prompt"`
key, including one whose `avg_ts` is the negative number −5; on that record
`derive_speeds` returns `(−5, 0)`, which is not a pair of non-negative
values. -/
theorem derive_speeds_negative_counterexample :
    derive_speeds (Json.obj [("n_prompt", Json.num 1), ("n_gen", Json.num 0),
      ("avg_ts", Json.num (-5))]) = Except.ok (-5, 0) ∧ ¬ ((0 : ℚ) ≤ -5) := by
  constructor
  · rfl
  · norm_num

/-- C8 (amended): on every record whose relevant fields are numbers (absent
fields defaulting to 0) that are all non-negative, `derive_speeds` returns —
without error — a pair of non-negative values; and a record with both timing
phases absent yields `(0, 0)`. -/
theorem derive_speeds_nonneg :
    (∀ (r : Json) (np ng avg tpp ttg : ℚ),
      r.dictGet "n_prompt" (Json.num 0) = Json.num np →
      r.dictGet "n_gen" (Json.num 0) = Json.num ng →
      r.dictGet "avg_ts" (Json.num 0) = Json.num avg →
      r.dictGet "t_pp_ms" (Json.num 0) = Json.num tpp →
      r.dictGet "t_tg_ms" (Json.num 0) = Json.num ttg →
      0 ≤ np → 0 ≤ ng → 0 ≤ avg → 0 ≤ tpp → 0 ≤ ttg →
      derive_speeds r = Except.ok (spec_derive np ng avg tpp ttg) ∧
        0 ≤ (spec_derive np ng avg tpp ttg).1 ∧ 0 ≤ (spec_derive np ng avg tpp ttg).2) ∧
    derive_speeds (Json.obj [("n_prompt", Json.num 128), ("n_gen", Json.num 64)]) =
      Except.ok (0, 0) := by
  constructor
  · intro r np ng avg tpp ttg h1 h2 h3 h4 h5 p1 p2 p3 p4 p5
    exact ⟨calculate_speeds_eq_spec r np ng avg tpp ttg h1 h2 h3 h4 h5,
      spec_derive_nonneg np ng avg tpp ttg p1 p2 p3 p4 p5⟩
  · rfl

/-- Witness for C8 (amended): the theorem applied to the record
`[("n_prompt", 0)]`, whose lookups are all the non-negative number 0. -/
theorem derive_speeds_nonneg_witness :
    derive_speeds (Json.obj [("n_prompt", Json.num 0)]) =
      Except.ok (spec_derive 0 0 0 0 0) ∧
      0 ≤ (spec_derive 0 0 0 0 0).1 ∧ 0 ≤ (spec_derive 0 0 0 0 0).2 :=
  derive_speeds_nonneg.1 (Json.obj [("n_prompt", Json.num 0)]) 0 0 0 0 0
    rfl rfl rfl rfl rfl (le_refl 0) (le_refl 0) (le_refl 0) (le_refl 0) (le_refl 0)

/-! ## C6: progress history -/

lemma update_result_ok (st : VizState) (r : Json) (kv : String) (st' : VizState)
    (h : update_result st r kv = Except.ok st') :
    st'.completed = st.completed + 1 ∧
    ∃ e : DisplayEntry, st'.results_history = st.results_history ++ [e] := by
  unfold update_result at h
  dsimp only at h
  cases hc : calculate_speeds r (r.dictGet "n_prompt" (Json.num 0))
      (r.dictGet "n_gen" (Json.num 0)) with
  | error e =>
    rw [hc] at h
    simp [Bind.bind, Except.bind] at h
  | ok s =>
    rw [hc] at h
    simp only [Bind.bind, Except.bind, Pure.pure, Except.pure, Except.ok.injEq] at h
    rw [← h]
    exact ⟨rfl, ⟨_, rfl⟩⟩

lemma record_many_ok (inputs : List (Json × String)) : ∀ (st st' : VizState),
    record_many st inputs = Except.ok st' →
    st'.completed = st.completed + inputs.length ∧
    st'.results_history.length = st.results_history.length + inputs.length := by
  induction inputs with
  | nil =>
    intro st st' h
    simp only [record_many, Except.ok.injEq] at h
    rw [← h]
    simp
  | cons p rest ih =>
    intro st st' h
    rcases p with ⟨r, kv⟩
    rw [record_many] at h
    cases hu : update_result st r kv with
    | error e =>
      rw [hu] at h
      simp [Bind.bind, Except.bind] at h
    | ok st1 =>
      rw [hu] at h
      simp only [Bind.bind, Except.bind] at h
      obtain ⟨hc1, e, he⟩ := update_result_ok st r kv st1 hu
      obtain ⟨hc2, hl2⟩ := ih st1 st' h
      constructor
      · rw [hc2, hc1]
        simp [Nat.add_assoc, Nat.add_comm 1 rest.length]
      · rw [hl2, he]
        simp [List.length_append, Nat.add_assoc, Nat.add_comm 1 rest.length]

/-- One parsed record with the given prompt count, as fed to the reporter
under the default cache-type label. -/
def rec_n (q : ℚ) : Json × String := (Json.obj [("n_prompt", Json.num q)], "q8_0/q8_0")

/-- Counterexample for C6: after recording 11 entries the stored history holds
all 11 of them — `update_result` appends without evicting, so the history does
not hold at most the 10 most recent entries. -/
theorem history_retains_all_entries :
    (record_many viz_init (List.replicate 11 (rec_n 1))).map
      (fun st => (st.results_history.length, st.completed)) = Except.ok (11, 11) ∧
    ¬ (11 ≤ 10) := by
  exact ⟨rfl, by norm_num⟩

/-- The fifteen records of the specification's history example. -/
def recs15 : List (Json × String) :=
  [rec_n 1, rec_n 2, rec_n 3, rec_n 4, rec_n 5, rec_n 6, rec_n 7, rec_n 8,
   rec_n 9, rec_n 10, rec_n 11, rec_n 12, rec_n 13, rec_n 14, rec_n 15]

/-- C6 (amended): each successful `update_result` appends to the stored
history (which grows without bound) and increments the completed count by
one; the rendered display shows at most the 10 most recently recorded
entries, namely the final suffix of the history in arrival order. After
recording 15 entries the display holds exactly entries 6–15, in arrival
order. -/
theorem display_history_bounded :
    (∀ (st : VizState) (inputs : List (Json × String)) (st' : VizState),
      record_many st inputs = Except.ok st' →
      st'.completed = st.completed + inputs.length ∧
      st'.results_history.length = st.results_history.length + inputs.length ∧
      display_rows st' = st'.results_history.drop (st'.results_history.length - 10) ∧
      (display_rows st').length ≤ 10 ∧
      st'.results_history.take (st'.results_history.length - 10) ++ display_rows st' =
        st'.results_history) ∧
    (record_many viz_init recs15).map
      (fun st => ((display_rows st).map (fun e => e.n_prompt), st.completed,
        st.results_history.length)) =
      Except.ok ([Json.num 6, Json.num 7, Json.num 8, Json.num 9, Json.num 10,
        Json.num 11, Json.num 12, Json.num 13, Json.num 14, Json.num 15], 15, 15) := by
  constructor
  · intro st inputs st' h
    obtain ⟨hc, hl⟩ := record_many_ok inputs st st' h
    refine ⟨hc, hl, rfl, ?_, ?_⟩
    · unfold display_rows
      rw [List.length_drop]
      omega
    · exact List.take_append_drop _ _
  · rfl

/-- The visualizer state after recording one `rec_n 1` result from the
initial state. -/
def viz_one : VizState where
  results_history :=
    [{ kv := "q8_0/q8_0", batch := Json.str "?", n_prompt := Json.num 1,
       n_gen := Json.num 0, n_depth := Json.num 0, enc_speed := 0, gen_speed := 0 }]
  completed := 1

/-- Witness for C6 (amended): the theorem applied to the one-record run whose
resulting state is `viz_one`. -/
theorem display_history_bounded_witness :
    viz_one.completed = viz_init.completed + 1 ∧
    (display_rows viz_one).length ≤ 10 :=
  ⟨(display_history_bounded.1 viz_init [rec_n 1] viz_one rfl).1,
   (display_history_bounded.1 viz_init [rec_n 1] viz_one rfl).2.2.2.1⟩

/-! ## C4 and C5: persistence -/

/-- An output directory with no files in it. -/
def empty_fs : FileSystem := fun _ => none

/-- An output directory already holding a stale file for the `q8_0/q8_0` pair
of 2026-01-01. -/
def stale_fs : FileSystem := fun f =>
  if f = output_filename "test-results" "q8_0" "q8_0" "20260101" then some [Json.num 1]
  else none

lemma run_single_config_fst (loads : String → Option Json)
    (k v date_str output_dir : String) (outcome : ProcOutcome) (fs : FileSystem) :
    (run_single_config loads k v date_str output_dir outcome fs).1 =
      save_results (collect loads outcome.linesRead)
        (output_filename output_dir k v date_str) fs := rfl

lemma save_results_nil (output_file : String) (fs : FileSystem) :
    save_results [] output_file fs = fs := rfl

lemma save_results_cons (x : Json) (xs : List Json) (output_file : String)
    (fs : FileSystem) :
    save_results (x :: xs) output_file fs =
      fun f => if f = output_file then some (x :: xs) else fs f := rfl

/-- Counterexample for C4: a run that collects zero records (subprocess exits
0 having emitted nothing) writes nothing at all — a stale file for the same
pair keeps its old contents instead of being overwritten with the empty
array. -/
theorem zero_records_not_persisted_counterexample :
    (run_single_config loads_none "q8_0" "q8_0" "20260101" "test-results"
      (ProcOutcome.completed [] 0 "") stale_fs).1
      (output_filename "test-results" "q8_0" "q8_0" "20260101") = some [Json.num 1] ∧
    some [Json.num 1] ≠ some ([] : List Json) := by
  constructor
  · rfl
  · simp

/-- C4 (amended): on every run outcome — normal exit, failing exit, or an
exception mid-run — the `finally` block hands exactly the collected records
to `_save_results` for the pair's deterministic output file; when at least one
record was collected the file is overwritten with the collected list (other
files untouched), and when zero were collected the file system is left
unchanged. -/
theorem run_persists_collected :
    ∀ (loads : String → Option Json) (k v date_str output_dir : String)
      (outcome : ProcOutcome) (fs : FileSystem),
      (run_single_config loads k v date_str output_dir outcome fs).1 =
        save_results (collect loads outcome.linesRead)
          (output_filename output_dir k v date_str) fs ∧
      (collect loads outcome.linesRead = [] →
        (run_single_config loads k v date_str output_dir outcome fs).1 = fs) ∧
      (collect loads outcome.linesRead ≠ [] →
        (run_single_config loads k v date_str output_dir outcome fs).1
            (output_filename output_dir k v date_str) =
          some (collect loads outcome.linesRead) ∧
        ∀ g, g ≠ output_filename output_dir k v date_str →
          (run_single_config loads k v date_str output_dir outcome fs).1 g = fs g) := by
  intro loads k v date_str output_dir outcome fs
  refine ⟨rfl, ?_, ?_⟩
  · intro h
    rw [run_single_config_fst, h, save_results_nil]
  · intro h
    rw [run_single_config_fst]
    cases hc : collect loads outcome.linesRead with
    | nil => exact absurd hc h
    | cons x xs =>
      rw [save_results_cons]
      constructor
      · simp
      · intro g hg
        simp [hg]

/-- Witness for C4 (amended): a run that parses one record from its single
output line persists that record to the pair's output file. -/
theorem run_persists_collected_witness :
    (run_single_config loads_sample "q8_0" "q8_0" "20260101" "test-results"
      (ProcOutcome.completed [sample_line] 0 "") empty_fs).1
      (output_filename "test-results" "q8_0" "q8_0" "20260101") =
      some (collect loads_sample
        (ProcOutcome.completed [sample_line] 0 "").linesRead) :=
  ((run_persists_collected loads_sample "q8_0" "q8_0" "20260101" "test-results"
    (ProcOutcome.completed [sample_line] 0 "") empty_fs).2.2
    (List.cons_ne_nil _ _)).1

/-- C5: saving is skipped exactly when the collected list is empty — a pair
whose run collects zero records leaves every file as it was (an absent output
file stays absent, rather than holding an empty array), and a run with
records writes its pair's file. -/
theorem save_skipped_iff_empty :
    ∀ (loads : String → Option Json) (k v date_str output_dir : String)
      (outcome : ProcOutcome) (fs : FileSystem),
      (collect loads outcome.linesRead = [] →
        ∀ g, (run_single_config loads k v date_str output_dir outcome fs).1 g = fs g) ∧
      (collect loads outcome.linesRead = [] →
        fs (output_filename output_dir k v date_str) = none →
        (run_single_config loads k v date_str output_dir outcome fs).1
          (output_filename output_dir k v date_str) = none) ∧
      (collect loads outcome.linesRead ≠ [] →
        (run_single_config loads k v date_str output_dir outcome fs).1
          (output_filename output_dir k v date_str) =
          some (collect loads outcome.linesRead)) := by
  intro loads k v date_str output_dir outcome fs
  refine ⟨?_, ?_, ?_⟩
  · intro h g
    rw [run_single_config_fst, h, save_results_nil]
  · intro h habs
    rw [run_single_config_fst, h, save_results_nil]
    exact habs
  · intro h
    rw [run_single_config_fst]
    cases hc : collect loads outcome.linesRead with
    | nil => exact absurd hc h
    | cons x xs =>
      rw [save_results_cons]
      simp

/-- Witness for C5: a run that collects zero records (its only line parses to
nothing) on an empty output directory leaves the pair's output file absent. -/
theorem save_skipped_iff_empty_witness :
    (run_single_config loads_none "q8_0" "q8_0" "20260101" "test-results"
      (ProcOutcome.completed ["noise line"] 0 "") empty_fs).1
      (output_filename "test-results" "q8_0" "q8_0" "20260101") = none :=
  (save_skipped_iff_empty loads_none "q8_0" "q8_0" "20260101" "test-results"
    (ProcOutcome.completed ["noise line"] 0 "") empty_fs).2.1 rfl rfl

/-! ## C7: run-level errors and sweep continuation -/

/-- C7: a non-zero exit code logs exactly one run-level error whose message
carries the accumulated standard-error text when any was captured; a zero
exit code with zero collected records logs exactly the non-fatal "no results"
error; and the sweep always launches every configured pair once, in order —
whatever each run's outcome — with no automatic retry of a failed pair. -/
theorem run_failures_logged_and_sweep_continues :
    (∀ (loads : String → Option Json) (k v date_str output_dir : String)
      (lines : List String) (rc : Int) (stderr_text : String) (fs : FileSystem),
      rc ≠ 0 →
      (run_single_config loads k v date_str output_dir
        (ProcOutcome.completed lines rc stderr_text) fs).2 =
        [process_fail_msg rc stderr_text] ∧
      (stderr_text ≠ "" →
        process_fail_msg rc stderr_text =
          "Process failed (rc=" ++ toString rc ++ ")" ++
            ("\nStderr: " ++ stderr_text))) ∧
    (∀ (loads : String → Option Json) (k v date_str output_dir : String)
      (lines : List String) (stderr_text : String) (fs : FileSystem),
      collect loads lines = [] →
      (run_single_config loads k v date_str output_dir
        (ProcOutcome.completed lines 0 stderr_text) fs).2 =
        ["No results for " ++ (k ++ "/" ++ v)]) ∧
    (∀ (loads : String → Option Json) (date_str output_dir : String)
      (outcome_of : String → String → ProcOutcome) (pairs : List (String × String))
      (fs : FileSystem),
      (run_all_pairs loads date_str output_dir outcome_of pairs fs).2.2 = pairs) := by
  refine ⟨?_, ?_, ?_⟩
  · intro loads k v date_str output_dir lines rc stderr_text fs hrc
    constructor
    · simp [run_single_config, check_process_result, hrc]
    · intro hs
      simp [process_fail_msg, hs]
  · intro loads k v date_str output_dir lines stderr_text fs hcol
    simp [run_single_config, ProcOutcome.linesRead, check_process_result, hcol]
  · intro loads date_str output_dir outcome_of pairs
    induction pairs with
    | nil => intro fs; rfl
    | cons p rest ih =>
      intro fs
      rcases p with ⟨k, v⟩
      rw [run_all_pairs]
      simp [ih]

/-- Witness for C7: a run exiting with code 2 and stderr text logs the
failure message ending in that text, and a clean run whose only line is
unparseable noise logs the "no results" error. -/
theorem run_failures_logged_witness :
    (run_single_config loads_none "q8_0" "q8_0" "20260101" "test-results"
      (ProcOutcome.completed [] 2 "boom") empty_fs).2 =
      [process_fail_msg 2 "boom"] ∧
    process_fail_msg 2 "boom" =
      "Process failed (rc=" ++ toString (2 : Int) ++ ")" ++ ("\nStderr: " ++ "boom") ∧
    (run_single_config loads_none "q8_0" "q8_0" "20260101" "test-results"
      (ProcOutcome.completed ["noise line"] 0 "boom") empty_fs).2 =
      ["No results for " ++ ("q8_0" ++ "/" ++ "q8_0")] :=
  ⟨(run_failures_logged_and_sweep_continues.1 loads_none "q8_0" "q8_0" "20260101"
      "test-results" [] 2 "boom" empty_fs (by decide)).1,
   (run_failures_logged_and_sweep_continues.1 loads_none "q8_0" "q8_0" "20260101"
      "test-results" [] 2 "boom" empty_fs (by decide)).2 (by decide),
   run_failures_logged_and_sweep_continues.2.1 loads_none "q8_0" "q8_0" "20260101"
      "test-results" ["noise line"] "boom" empty_fs rfl⟩

/-! ## C9: CLI behaviour -/

/-- C9: fewer than two CLI words exit with status 1 after printing the usage
line; a model path that does not exist exits with status 1; once the path
check passes the estimated total run count is printed and the program blocks
at the confirmation prompt, where an interrupt exits with status 0; an
interrupt during execution terminates an in-flight child process and exits
with status 130; normal completion exits with status 0. -/
theorem main_exit_codes :
    ∀ (argv : List String) (path_exists : String → Bool) (cfg : BenchConfig),
      (∀ (confirm : ConfirmEvent) (exec_event : ExecEvent), argv.length < 2 →
        main_model argv path_exists cfg confirm exec_event =
          { exit_code := 1, printed_usage := true, printed_plan := none,
            terminated_child := false }) ∧
      (∀ (confirm : ConfirmEvent) (exec_event : ExecEvent), 2 ≤ argv.length →
        path_exists (argv.getD 1 "") = false →
        main_model argv path_exists cfg confirm exec_event =
          { exit_code := 1, printed_usage := false, printed_plan := none,
            terminated_child := false }) ∧
      (∀ exec_event : ExecEvent, 2 ≤ argv.length →
        path_exists (argv.getD 1 "") = true →
        main_model argv path_exists cfg ConfirmEvent.interrupted exec_event =
          { exit_code := 0, printed_usage := false,
            printed_plan := some (cfg.kv_cache_types.length * cfg.count_combinations),
            terminated_child := false }) ∧
      (∀ running : Bool, 2 ≤ argv.length → path_exists (argv.getD 1 "") = true →
        main_model argv path_exists cfg ConfirmEvent.entered
            (ExecEvent.interrupted running) =
          { exit_code := 130, printed_usage := false,
            printed_plan := some (cfg.kv_cache_types.length * cfg.count_combinations),
            terminated_child := running }) ∧
      (2 ≤ argv.length → path_exists (argv.getD 1 "") = true →
        main_model argv path_exists cfg ConfirmEvent.entered ExecEvent.completes =
          { exit_code := 0, printed_usage := false,
            printed_plan := some (cfg.kv_cache_types.length * cfg.count_combinations),
            terminated_child := false }) := by
  intro argv path_exists cfg
  refine ⟨?_, ?_, ?_, ?_, ?_⟩
  · intro confirm exec_event h
    simp [main_model, h]
  · intro confirm exec_event h hpe
    have h2 : ¬ argv.length < 2 := by omega
    rw [List.getD_eq_getElem?_getD] at hpe
    simp [main_model, h2, hpe]
  · intro exec_event h hpe
    have h2 : ¬ argv.length < 2 := by omega
    rw [List.getD_eq_getElem?_getD] at hpe
    simp [main_model, h2, hpe]
  · intro running h hpe
    have h2 : ¬ argv.length < 2 := by omega
    rw [List.getD_eq_getElem?_getD] at hpe
    simp [main_model, h2, hpe]
  · intro h hpe
    have h2 : ¬ argv.length < 2 := by omega
    rw [List.getD_eq_getElem?_getD] at hpe
    simp [main_model, h2, hpe]

/-- A path-existence oracle for which every path exists. -/
def path_always : String → Bool := fun _ => true

/-- A path-existence oracle for which no path exists. -/
def path_never : String → Bool := fun _ => false

/-- Witness for C9: the theorem applied to a one-word command line, a missing
model path, and an existing model path under each confirmation and execution
event. -/
theorem main_exit_codes_witness :
    main_model ["llama-bench-runner.py"] path_always default_config
      ConfirmEvent.entered ExecEvent.completes =
      { exit_code := 1, printed_usage := true, printed_plan := none,
        terminated_child := false } ∧
    main_model ["llama-bench-runner.py", "model.gguf"] path_never default_config
      ConfirmEvent.entered ExecEvent.completes =
      { exit_code := 1, printed_usage := false, printed_plan := none,
        terminated_child := false } ∧
    main_model ["llama-bench-runner.py", "model.gguf"] path_always default_config
      ConfirmEvent.interrupted ExecEvent.completes =
      { exit_code := 0, printed_usage := false,
        printed_plan := some (default_config.kv_cache_types.length *
          default_config.count_combinations),
        terminated_child := false } ∧
    main_model ["llama-bench-runner.py", "model.gguf"] path_always default_config
      ConfirmEvent.entered (ExecEvent.interrupted true) =
      { exit_code := 130, printed_usage := false,
        printed_plan := some (default_config.kv_cache_types.length *
          default_config.count_combinations),
        terminated_child := true } ∧
    main_model ["llama-bench-runner.py", "model.gguf"] path_always default_config
      ConfirmEvent.entered ExecEvent.completes =
      { exit_code := 0, printed_usage := false,
        printed_plan := some (default_config.kv_cache_types.length *
          default_config.count_combinations),
        terminated_child := false } :=
  ⟨(main_exit_codes ["llama-bench-runner.py"] path_always default_config).1
      ConfirmEvent.entered ExecEvent.completes (by decide),
   (main_exit_codes ["llama-bench-runner.py", "model.gguf"] path_never
      default_config).2.1 ConfirmEvent.entered ExecEvent.completes (by decide) rfl,
   (main_exit_codes ["llama-bench-runner.py", "model.gguf"] path_always
      default_config).2.2.1 ExecEvent.completes (by decide) rfl,
   (main_exit_codes ["llama-bench-runner.py", "model.gguf"] path_always
      default_config).2.2.2.1 true (by decide) rfl,
   (main_exit_codes ["llama-bench-runner.py", "model.gguf"] path_always
      default_config).2.2.2.2 (by decide) rfl⟩

end LlamaBench
